import Mathlib

/-!
Shallow embedding of `src/src/Arduino_NotecardConnectionHandler.cpp`
(the Notecard connection handler of Arduino_ConnectionHandler).

The handler talks to an external transactional library (`J *` request /
response objects, `requestAndResponse`, `NoteResponseError`, ...).  That
library is out of scope of the repository, so every transaction outcome is
an explicit input of the embedded function (an oracle value such as
`TxOutcome` or `ProbeOutcome`), and the handler's own observable data
(inbound buffer, cursor, queues, returned state and status codes) is
modelled exactly as the source computes it.
-/

namespace NotecardCH

/-- Connection states of the `NetworkConnectionState` enum used by the source
(`INIT`, `CONNECTING`, `CONNECTED`, `DISCONNECTING`, `DISCONNECTED`,
`CLOSED`, `ERROR`). -/
inductive NetworkConnectionState
  | INIT
  | CONNECTING
  | CONNECTED
  | DISCONNECTING
  | DISCONNECTED
  | CLOSED
  | ERROR
  deriving DecidableEq, Repr

/-- The `NotecardConnectionStatus` bitfield struct (source lines 54-76): four
independent boolean flags plus reserved bits.  The C++ default constructor
zero-initializes every field. -/
structure NotecardConnectionStatus where
  transport_connected  : Bool
  connected_to_notehub : Bool
  notecard_error       : Bool
  host_error           : Bool
  reserved             : Nat
  deriving DecidableEq, Repr

/-- Outcome of one `hub.status` transaction, as seen by
`NotecardConnectionHandler::connected` (source lines 483-515):
either `requestAndResponse` returned NULL (`hostFail`), or it returned a
response with an error indication (`NoteResponseError`), a free-text
`status` string and a boolean `connected` field. -/
inductive ProbeOutcome
  | hostFail
  | rsp (err : Bool) (status : List Char) (connectedField : Bool)
  deriving DecidableEq, Repr

/-- Character-by-character model of C `strstr(hay, needle) != NULL`:
true iff some suffix of `hay` starts with `needle`. -/
def strstrContains (needle : List Char) : List Char → Bool
  | [] => needle.isPrefixOf []
  | c :: t => needle.isPrefixOf (c :: t) || strstrContains needle t

/-- The token searched for in the free-text `status` field
(source line 495: `strstr(JGetString(rsp,"status"),"\x7bconnected\x7d")`). -/
def connectedToken : List Char := "\x7bconnected\x7d".toList

/-- Embedding of `NotecardConnectionHandler::connected` (source lines
483-515).  The default-constructed `result` starts all-zero; each branch
then assigns exactly the fields the source assigns. -/
def connected (probe : ProbeOutcome) : NotecardConnectionStatus :=
  match probe with
  | .hostFail =>
      { transport_connected := false, connected_to_notehub := false,
        notecard_error := false, host_error := true, reserved := 0 }
  | .rsp true _ _ =>
      { transport_connected := false, connected_to_notehub := false,
        notecard_error := true, host_error := false, reserved := 0 }
  | .rsp false status conn =>
      { transport_connected := strstrContains connectedToken status,
        connected_to_notehub := conn,
        notecard_error := false, host_error := false, reserved := 0 }

/-- Modular width of Arduino's `unsigned long` (32 bits): `millis()` and
`_conn_start_ms` arithmetic wraps at 2^32. -/
def UINT32_MOD : Nat := 4294967296

/-- Unsigned 32-bit subtraction `a - b`, as computed by
`::millis() - _conn_start_ms` in the source (line 336). -/
def sub32 (a b : Nat) : Nat := (a + (UINT32_MOD - b % UINT32_MOD)) % UINT32_MOD

/-- Embedding of `NotecardConnectionHandler::update_handleConnecting`
(source lines 329-355).  `timeout` stands for the fixed configuration
constant `NOTEHUB_CONN_TIMEOUT_MS`, whose numeric value lives in the
header, which is not part of `src/`; it is therefore passed as a
parameter. -/
def update_handleConnecting (probe : ProbeOutcome) (now conn_start_ms timeout : Nat) :
    NetworkConnectionState :=
  let conn_status := connected probe
  if !conn_status.connected_to_notehub then
    if sub32 now conn_start_ms > timeout then
      NetworkConnectionState.INIT
    else
      NetworkConnectionState.CONNECTING
  else
    NetworkConnectionState.CONNECTED

/-- Embedding of `NotecardConnectionHandler::update_handleConnected`
(source lines 357-374). -/
def update_handleConnected (probe : ProbeOutcome) : NetworkConnectionState :=
  let conn_status := connected probe
  if !conn_status.connected_to_notehub then
    NetworkConnectionState.DISCONNECTED
  else
    NetworkConnectionState.CONNECTED

/-- Outcome of one request/response transaction of the external library:
the request object could not be allocated (`allocFail`), the response
carried a protocol error (`rspErr`), or it succeeded (`ok`). -/
inductive TxOutcome
  | allocFail
  | rspErr
  | ok
  deriving DecidableEq, Repr

/-- Embedding of `NotecardConnectionHandler::configureConnection`
(source lines 448-481): false on allocation failure or response error,
true otherwise. -/
def configureConnection (tx : TxOutcome) : Bool :=
  match tx with
  | .allocFail => false
  | .rspErr => false
  | .ok => true

/-- Result value of one guarded `note.template` block of
`update_handleInit` (source lines 258-299): `ERROR` on allocation failure
or response error, `INIT` on success. -/
def templateStep (tx : TxOutcome) : NetworkConnectionState :=
  match tx with
  | .allocFail => NetworkConnectionState.ERROR
  | .rspErr => NetworkConnectionState.ERROR
  | .ok => NetworkConnectionState.INIT

/-- Transaction oracle for one invocation of `update_handleInit`:
the outcome of each external call the handler makes, in source order,
plus `garbage`, the indeterminate initial value of the local
`NetworkConnectionState result;`, which the source leaves UNINITIALIZED
(line 222) and reads when `getNote(false)` finds no note. -/
structure InitEnv where
  garbage : NetworkConnectionState
  note_available : Bool
  configure_tx : TxOutcome
  inbound_template_tx : TxOutcome
  outbound_template_tx : TxOutcome
  hub_get_tx : TxOutcome
  keep_alive : Bool
  now : Nat
  deriving DecidableEq, Repr

/-- Embedding of `NotecardConnectionHandler::update_handleInit`
(source lines 220-327).  Returns the next state together with the value of
`_conn_start_ms` after the call (second component; `conn_start_ms` is its
value before the call, `env.now` is `::millis()` at line 313).  The local
`result` is uninitialized in the source; its indeterminate initial value
is made explicit as `env.garbage`, and each `if (INIT == result)` guard is
translated literally. -/
def update_handleInit (env : InitEnv) (conn_start_ms : Nat) :
    NetworkConnectionState × Nat :=
  let result0 := env.garbage
  let result1 := if env.note_available then NetworkConnectionState.INIT else result0
  let result2 :=
    if result1 = NetworkConnectionState.INIT then
      (if configureConnection env.configure_tx then NetworkConnectionState.INIT
       else NetworkConnectionState.ERROR)
    else result1
  let result3 :=
    if result2 = NetworkConnectionState.INIT then templateStep env.inbound_template_tx
    else result2
  let result4 :=
    if result3 = NetworkConnectionState.INIT then templateStep env.outbound_template_tx
    else result3
  if result4 = NetworkConnectionState.INIT then
    match env.hub_get_tx with
    | .allocFail => (NetworkConnectionState.ERROR, conn_start_ms)
    | .rspErr => (NetworkConnectionState.ERROR, conn_start_ms)
    | .ok =>
        if env.keep_alive then (NetworkConnectionState.CONNECTING, env.now)
        else (NetworkConnectionState.DISCONNECTED, conn_start_ms)
  else (result4, conn_start_ms)

/-- Modelled from the spec: success status of the stream interface.  The
`NotecardCommunicationError` enum lives in the handler's header, which is
not part of `src/`; the spec only requires three pairwise distinct status
codes plus a distinguished "no data" sentinel, so representative distinct
integer values are fixed here. -/
def NOTECARD_ERROR_NONE : Int := 0

/-- Modelled from the spec: the distinguished "no data" sentinel returned
by `read()`; distinct from every byte value (bytes are non-negative). -/
def NOTECARD_ERROR_NO_DATA_AVAILABLE : Int := -1

/-- Modelled from the spec: the generic transactional-error status. -/
def NOTECARD_ERROR_GENERIC : Int := -2

/-- Modelled from the spec: the distinct host-side allocation-failure
status ("request object could not be built"). -/
def HOST_ERROR_OUT_OF_MEMORY : Int := -3

/-- One `note.add` request as built by `write` (source lines 161-166):
the binary payload and whether the `sync` flag was attached (it is
attached exactly when `_keep_alive` holds).  The fixed `file` field is the
outbound notefile name and is omitted. -/
structure NoteAddRequest where
  payload : List Nat
  sync : Bool
  deriving DecidableEq, Repr

/-- The request object built by `write` before transmission
(source lines 161-166). -/
def buildNoteAddRequest (keep_alive : Bool) (payload : List Nat) : NoteAddRequest :=
  { payload := payload, sync := keep_alive }

/-- Observable state of one `NotecardConnectionHandler`, restricted to the
data the stream interface reads and writes: `_inbound_buffer` with
`_inbound_buffer_size` (the byte list), `_inbound_buffer_index` (the read
cursor), the inbound notefile's queued note payloads, the outbound
notefile's queued requests, whether a `card.attn` rearm was attempted, and
the construction-time flags `_en_hw_int` and `_keep_alive`. -/
structure HandlerState where
  inbound_buffer : List Nat
  inbound_buffer_index : Nat
  inbound_queue : List (List Nat)
  outbound_queue : List NoteAddRequest
  rearm_attempted : Bool
  en_hw_int : Bool
  keep_alive : Bool
  deriving DecidableEq, Repr

/-- Outcome of the `note.add` transaction issued by `write`: the request
object could not be allocated, or a response with / without an error. -/
inductive WriteEnv
  | allocFail
  | rsp (err : Bool)
  deriving DecidableEq, Repr

/-- Embedding of `NotecardConnectionHandler::write` (source lines
157-182): returns the status code and the state after the call.  On a
successful transaction the built request (payload plus `sync` flag, the
flag set exactly when `_keep_alive` holds) is appended to the outbound
notefile; on a response error the note was not added; on allocation
failure no request is sent at all. -/
def write (env : WriteEnv) (payload : List Nat) (s : HandlerState) :
    Int × HandlerState :=
  match env with
  | .allocFail => (HOST_ERROR_OUT_OF_MEMORY, s)
  | .rsp true => (NOTECARD_ERROR_GENERIC, s)
  | .rsp false =>
      (NOTECARD_ERROR_NONE,
       { s with outbound_queue :=
           s.outbound_queue ++ [buildNoteAddRequest s.keep_alive payload] })

/-- Embedding of `NotecardConnectionHandler::read` (source lines 184-195):
the byte at the cursor (advancing it) when the cursor is strictly below
the buffer length, the "no data" sentinel otherwise. -/
def read (s : HandlerState) : Int × HandlerState :=
  if h : s.inbound_buffer_index < s.inbound_buffer.length then
    ((s.inbound_buffer.get ⟨s.inbound_buffer_index, h⟩ : Int),
     { s with inbound_buffer_index := s.inbound_buffer_index + 1 })
  else
    (NOTECARD_ERROR_NO_DATA_AVAILABLE, s)

/-- Embedding of `NotecardConnectionHandler::getNote` (source lines
517-551): a `note.get` on the inbound notefile.  When the notefile is
empty the transaction returns the `note-noexist` error, which is not a
failure: no note is available and, when `_en_hw_int` holds, `armInterrupt`
is invoked (its transaction is issued toward the external device; the
ignored boolean it returns is modelled separately).  When a note exists it
is returned, and removed from the notefile when `pop` holds. -/
def getNote (pop : Bool) (s : HandlerState) : Option (List Nat) × HandlerState :=
  match s.inbound_queue with
  | [] =>
      if s.en_hw_int then (none, { s with rearm_attempted := true })
      else (none, s)
  | note :: rest =>
      (some note, if pop then { s with inbound_queue := rest } else s)

/-- Embedding of `NotecardConnectionHandler::available` (source lines
197-214): true when the buffer holds unread bytes; otherwise one consuming
dequeue is attempted, and on success the note's payload replaces the
inbound buffer with the cursor reset to zero. -/
def available (s : HandlerState) : Bool × HandlerState :=
  if s.inbound_buffer_index < s.inbound_buffer.length then
    (true, s)
  else
    match getNote true s with
    | (some payload, s1) =>
        (true, { s1 with inbound_buffer := payload, inbound_buffer_index := 0 })
    | (none, s1) => (false, s1)

/-- Modelled from the spec: the simulated relay of the round-trip law
(section 8).  The relay itself is out of scope of the source; delivering a
payload back through the inbound channel appends one note carrying that
payload to the inbound notefile. -/
def relayDeliver (payload : List Nat) (s : HandlerState) : HandlerState :=
  { s with inbound_queue := s.inbound_queue ++ [payload] }

/-- Driver loop of the round-trip law: up to `n` rounds of one
`available()` call followed, when it returns true, by one `read()` call;
stops as soon as `available()` reports false.  Returns the bytes read in
order together with the final state. -/
def drainReads : Nat → HandlerState → List Int × HandlerState
  | 0, s => ([], s)
  | Nat.succ n, s =>
      match available s with
      | (true, s1) =>
          let r := read s1
          let rest := drainReads n r.2
          (r.1 :: rest.1, rest.2)
      | (false, s1) => ([], s1)

/-- Transaction oracle for one invocation of `armInterrupt`: whether the
`card.attn` request object was allocated, whether its `files` array was
allocated, and whether the response carried an error. -/
structure ArmEnv where
  req_ok : Bool
  files_ok : Bool
  rsp_err : Bool
  deriving DecidableEq, Repr

/-- Embedding of `NotecardConnectionHandler::armInterrupt` (source lines
413-446).  A response error is deliberately ignored (the known
`rearm` idempotency defect, source lines 423-433), so an errored response
and a clean response both yield true; only the two allocation failures
yield false. -/
def armInterrupt (env : ArmEnv) : Bool :=
  if env.req_ok then
    if env.files_ok then
      if env.rsp_err then
        true
      else
        true
    else false
  else false

theorem isPrefixOf_iff_exists (l₁ l₂ : List Char) :
    l₁.isPrefixOf l₂ = true ↔ ∃ t, l₂ = l₁ ++ t := by
  induction l₁ generalizing l₂ with
  | nil => simp [List.isPrefixOf]
  | cons a as ih =>
    cases l₂ with
    | nil => simp [List.isPrefixOf]
    | cons b bs =>
      simp only [List.isPrefixOf, Bool.and_eq_true, beq_iff_eq, ih, List.cons_append,
        List.cons.injEq]
      constructor
      · rintro ⟨hab, t, ht⟩
        exact ⟨t, hab.symm, ht⟩
      · rintro ⟨t, hba, ht⟩
        exact ⟨hba.symm, t, ht⟩

theorem strstrContains_iff (needle hay : List Char) :
    strstrContains needle hay = true ↔ ∃ pre post, hay = pre ++ needle ++ post := by
  induction hay with
  | nil =>
    simp only [strstrContains, isPrefixOf_iff_exists]
    constructor
    · rintro ⟨t, ht⟩
      exact ⟨[], t, by simpa using ht⟩
    · rintro ⟨pre, post, hp⟩
      refine ⟨post, ?_⟩
      rcases List.append_eq_nil.mp hp.symm with ⟨h1, h2⟩
      rcases List.append_eq_nil.mp h1 with ⟨h3, h4⟩
      simp [h2, h3, h4]
  | cons c t ih =>
    simp only [strstrContains, Bool.or_eq_true, isPrefixOf_iff_exists, ih]
    constructor
    · rintro (⟨s, hs⟩ | ⟨pre, post, hp⟩)
      · exact ⟨[], s, by simpa using hs⟩
      · exact ⟨c :: pre, post, by simp [hp]⟩
    · rintro ⟨pre, post, hp⟩
      cases pre with
      | nil => exact Or.inl ⟨post, by simpa using hp⟩
      | cons d pre =>
        have hdp : c = d ∧ t = pre ++ needle ++ post := by simpa using hp
        exact Or.inr ⟨pre, post, hdp.2⟩

/-- C5: for every status-probe response that is not a transaction failure
and not a protocol error, the decoded status has both error flags clear,
`transport_connected` is true iff the free-text status string contains the
connected-token substring, and `connected_to_notehub` equals the
response's explicit boolean `connected` field (so token present together
with a false boolean yields `transport_connected = true` and
`connected_to_notehub = false`). -/
theorem C5_probe_decode (status : List Char) (b : Bool) :
    (connected (.rsp false status b)).notecard_error = false ∧
    (connected (.rsp false status b)).host_error = false ∧
    ((connected (.rsp false status b)).transport_connected = true ↔
      ∃ pre post, status = pre ++ connectedToken ++ post) ∧
    (connected (.rsp false status b)).connected_to_notehub = b :=
  ⟨rfl, rfl, strstrContains_iff connectedToken status, rfl⟩

/-- C5 witness: a concrete status text containing the token, with a false
`connected` boolean, decodes to `transport_connected = true` and
`connected_to_notehub = false`. -/
theorem C5_probe_decode_witness :
    (connected (.rsp false ("a \x7bconnected\x7d b".toList) false)).transport_connected
      = true ∧
    (connected (.rsp false ("a \x7bconnected\x7d b".toList) false)).connected_to_notehub
      = false :=
  ⟨((C5_probe_decode ("a \x7bconnected\x7d b".toList) false).2.2.1).mpr
      ⟨"a ".toList, " b".toList, rfl⟩,
   (C5_probe_decode ("a \x7bconnected\x7d b".toList) false).2.2.2⟩

/-- C6: a status query that cannot be issued at all decodes to
`host_error = true` with `notecard_error` clear and both connectivity
booleans false, and for every possible probe outcome `notecard_error` and
`host_error` are never both set. -/
theorem C6_probe_host_failure (probe : ProbeOutcome) :
    connected .hostFail =
      { transport_connected := false, connected_to_notehub := false,
        notecard_error := false, host_error := true, reserved := 0 } ∧
    ((connected probe).notecard_error && (connected probe).host_error) = false := by
  refine ⟨rfl, ?_⟩
  cases probe with
  | hostFail => rfl
  | rsp err status b => cases err <;> rfl

/-- C1: evaluation of `update_handleInit` at the failing input.  When the
inbound-queue probe finds no note, the source reads the UNINITIALIZED
local `result`: the handler returns whatever indeterminate value the local
happened to hold (first two conjuncts differ only in that value) and skips
the whole initialization sequence, even though every transaction would
have succeeded.  With a note available (third conjunct) the local is
assigned and the handler transitions as the claim states. -/
theorem C1_init_uninitialized_result :
    update_handleInit ⟨.CONNECTED, false, .ok, .ok, .ok, .ok, true, 1234⟩ 0
      = (.CONNECTED, 0) ∧
    update_handleInit ⟨.DISCONNECTING, false, .ok, .ok, .ok, .ok, true, 1234⟩ 0
      = (.DISCONNECTING, 0) ∧
    update_handleInit ⟨.CONNECTED, true, .ok, .ok, .ok, .ok, true, 1234⟩ 0
      = (.CONNECTING, 1234) :=
  ⟨rfl, rfl, rfl⟩

/-- C2: the CONNECTING-state handler returns CONNECTED when the probe
reports relay-connected; otherwise INIT when the 32-bit wall-clock time
elapsed since the recorded start exceeds the fixed timeout, and CONNECTING
when it does not; and whenever `update_handleInit` actually runs the
initialization sequence (its local `result` was assigned because the probe
found a note) and transitions to CONNECTING, the start timestamp is
refreshed to the current `millis()` value. -/
theorem C2_connecting_transitions (probe : ProbeOutcome) (now start timeout : Nat)
    (env : InitEnv) (ms : Nat) :
    ((connected probe).connected_to_notehub = true →
      update_handleConnecting probe now start timeout = .CONNECTED) ∧
    ((connected probe).connected_to_notehub = false →
      sub32 now start > timeout →
      update_handleConnecting probe now start timeout = .INIT) ∧
    ((connected probe).connected_to_notehub = false →
      sub32 now start ≤ timeout →
      update_handleConnecting probe now start timeout = .CONNECTING) ∧
    (env.note_available = true →
      (update_handleInit env ms).1 = .CONNECTING →
      (update_handleInit env ms).2 = env.now) := by
  refine ⟨?_, ?_, ?_, ?_⟩
  · intro h
    simp [update_handleConnecting, h]
  · intro h ht
    simp [update_handleConnecting, h, ht]
  · intro h ht
    simp [update_handleConnecting, h, Nat.not_lt.mpr ht]
  · intro hna
    obtain ⟨g, na, ctx, itx, otx, htx, ka, nw⟩ := env
    simp only at hna
    subst hna
    cases ctx <;> cases itx <;> cases otx <;> cases htx <;> cases ka <;>
      simp [update_handleInit, configureConnection, templateStep]

/-- C2 witness: concrete instances of all four parts. -/
theorem C2_connecting_witness :
    update_handleConnecting (.rsp false [] true) 0 0 100 = .CONNECTED ∧
    update_handleConnecting (.rsp false [] false) 200 0 100 = .INIT ∧
    update_handleConnecting (.rsp false [] false) 50 0 100 = .CONNECTING ∧
    (update_handleInit ⟨.ERROR, true, .ok, .ok, .ok, .ok, true, 777⟩ 0).2 = 777 :=
  ⟨(C2_connecting_transitions (.rsp false [] true) 0 0 100
      ⟨.ERROR, true, .ok, .ok, .ok, .ok, true, 777⟩ 0).1 (by decide),
   (C2_connecting_transitions (.rsp false [] false) 200 0 100
      ⟨.ERROR, true, .ok, .ok, .ok, .ok, true, 777⟩ 0).2.1 (by decide) (by decide),
   (C2_connecting_transitions (.rsp false [] false) 50 0 100
      ⟨.ERROR, true, .ok, .ok, .ok, .ok, true, 777⟩ 0).2.2.1 (by decide) (by decide),
   (C2_connecting_transitions (.rsp false [] true) 0 0 100
      ⟨.ERROR, true, .ok, .ok, .ok, .ok, true, 777⟩ 0).2.2.2 rfl (by decide)⟩

theorem foldl_connected_steady (probes : List ProbeOutcome)
    (hall : ∀ p ∈ probes, (connected p).connected_to_notehub = true) :
    probes.foldl
      (fun st p =>
        if st = NetworkConnectionState.CONNECTED then update_handleConnected p else st)
      NetworkConnectionState.CONNECTED = NetworkConnectionState.CONNECTED := by
  induction probes with
  | nil => rfl
  | cons p ps ih =>
    have hp : (connected p).connected_to_notehub = true := hall p (by simp)
    have hstep : update_handleConnected p = NetworkConnectionState.CONNECTED := by
      simp [update_handleConnected, hp]
    simp only [List.foldl_cons]
    simp only [if_pos rfl, hstep]
    exact ih (fun q hq => hall q (by simp [hq]))

/-- C3: the CONNECTED-state handler returns CONNECTED when the probe
reports relay-connected and DISCONNECTED when it does not, so any number
of repeated ticks from CONNECTED while every probe keeps reporting
relay-connected leaves the state unchanged. -/
theorem C3_connected_steady_state (probe : ProbeOutcome) (probes : List ProbeOutcome) :
    ((connected probe).connected_to_notehub = true →
      update_handleConnected probe = .CONNECTED) ∧
    ((connected probe).connected_to_notehub = false →
      update_handleConnected probe = .DISCONNECTED) ∧
    ((∀ p ∈ probes, (connected p).connected_to_notehub = true) →
      probes.foldl
        (fun st p =>
          if st = NetworkConnectionState.CONNECTED then update_handleConnected p else st)
        NetworkConnectionState.CONNECTED = .CONNECTED) := by
  refine ⟨?_, ?_, foldl_connected_steady probes⟩
  · intro h
    simp [update_handleConnected, h]
  · intro h
    simp [update_handleConnected, h]

/-- C3 witness: two consecutive connected ticks stay CONNECTED, one
disconnected probe yields DISCONNECTED. -/
theorem C3_connected_witness :
    update_handleConnected (.rsp false [] true) = .CONNECTED ∧
    update_handleConnected (.rsp true [] false) = .DISCONNECTED ∧
    [ProbeOutcome.rsp false [] true, ProbeOutcome.rsp false [] true].foldl
      (fun st p =>
        if st = NetworkConnectionState.CONNECTED then update_handleConnected p else st)
      NetworkConnectionState.CONNECTED = .CONNECTED :=
  ⟨(C3_connected_steady_state (.rsp false [] true) []).1 (by decide),
   (C3_connected_steady_state (.rsp true [] false) []).2.1 (by decide),
   (C3_connected_steady_state (.rsp false [] true)
      [ProbeOutcome.rsp false [] true, ProbeOutcome.rsp false [] true]).2.2 (by decide)⟩

/-- C7: on an exhausted buffer (cursor at or past the end) `read` returns
the "no data" sentinel and leaves the whole state unchanged; with the
cursor strictly below the buffer length it returns the byte at the cursor
(accessed with an in-bounds proof, so no out-of-bounds access) and
advances the cursor by exactly one; and `read` never touches the inbound
buffer contents or the inbound queue, so it never triggers a dequeue. -/
theorem C7_read_cursor_safety (s : HandlerState) :
    (s.inbound_buffer.length ≤ s.inbound_buffer_index →
      read s = (NOTECARD_ERROR_NO_DATA_AVAILABLE, s)) ∧
    (∀ h : s.inbound_buffer_index < s.inbound_buffer.length,
      (read s).1 = (s.inbound_buffer.get ⟨s.inbound_buffer_index, h⟩ : Int) ∧
      (read s).2 = { s with inbound_buffer_index := s.inbound_buffer_index + 1 }) ∧
    (read s).2.inbound_buffer = s.inbound_buffer ∧
    (read s).2.inbound_queue = s.inbound_queue := by
  refine ⟨?_, ?_, ?_, ?_⟩
  · intro h
    unfold read
    rw [dif_neg (Nat.not_lt.mpr h)]
  · intro h
    unfold read
    rw [dif_pos h]
    exact ⟨rfl, rfl⟩
  · unfold read
    by_cases h : s.inbound_buffer_index < s.inbound_buffer.length
    · rw [dif_pos h]
    · rw [dif_neg h]
  · unfold read
    by_cases h : s.inbound_buffer_index < s.inbound_buffer.length
    · rw [dif_pos h]
    · rw [dif_neg h]

/-- C7 witness: an exhausted two-byte buffer yields the sentinel with the
state unchanged, and a fresh cursor yields the first byte. -/
theorem C7_read_witness :
    read ⟨[7, 8], 2, [], [], false, false, false⟩
      = (NOTECARD_ERROR_NO_DATA_AVAILABLE, ⟨[7, 8], 2, [], [], false, false, false⟩) ∧
    (read ⟨[7, 8], 0, [], [], false, false, false⟩).1 = 7 :=
  ⟨(C7_read_cursor_safety ⟨[7, 8], 2, [], [], false, false, false⟩).1 (by decide),
   by
     have h :=
       ((C7_read_cursor_safety ⟨[7, 8], 0, [], [], false, false, false⟩).2.1
         (by decide)).1
     simpa using h⟩

/-- C8: with no unread bytes in the buffer and the inbound queue reporting
"queue empty", `available` returns false and leaves the inbound buffer,
its length and its cursor (and the queue itself) unchanged; with unread
bytes still buffered it returns true with the whole state untouched, so
no dequeue is attempted. -/
theorem C8_available_frame (s : HandlerState) :
    (s.inbound_buffer.length ≤ s.inbound_buffer_index → s.inbound_queue = [] →
      (available s).1 = false ∧
      (available s).2.inbound_buffer = s.inbound_buffer ∧
      (available s).2.inbound_buffer_index = s.inbound_buffer_index ∧
      (available s).2.inbound_queue = s.inbound_queue) ∧
    (s.inbound_buffer_index < s.inbound_buffer.length →
      available s = (true, s)) := by
  constructor
  · intro hb hq
    unfold available getNote
    rw [if_neg (Nat.not_lt.mpr hb), hq]
    by_cases hint : s.en_hw_int
    · rw [if_pos hint]
      exact ⟨rfl, rfl, rfl, rfl⟩
    · rw [if_neg hint]
      exact ⟨rfl, rfl, rfl, hq⟩
  · intro h
    unfold available
    rw [if_pos h]

/-- C8 witness: an exhausted buffer with an empty queue yields false, a
buffer with an unread byte yields true with the state unchanged. -/
theorem C8_available_witness :
    (available ⟨[9], 1, [], [], false, true, false⟩).1 = false ∧
    available ⟨[9], 0, [], [], false, false, false⟩
      = (true, ⟨[9], 0, [], [], false, false, false⟩) :=
  ⟨((C8_available_frame ⟨[9], 1, [], [], false, true, false⟩).1 (by decide) rfl).1,
   (C8_available_frame ⟨[9], 0, [], [], false, false, false⟩).2 (by decide)⟩

/-- C9: `write` returns the distinct host-side allocation-failure status
when the request object cannot be built (without sending anything), the
generic transactional-error status when the response carries a protocol
error, and the success status otherwise; on success the enqueued request
carries the payload and a `sync` flag set exactly when the keep-alive
policy is active; and the three status codes are pairwise distinct. -/
theorem C9_write_statuses (payload : List Nat) (s : HandlerState) :
    write .allocFail payload s = (HOST_ERROR_OUT_OF_MEMORY, s) ∧
    (write (.rsp true) payload s).1 = NOTECARD_ERROR_GENERIC ∧
    (write (.rsp false) payload s).1 = NOTECARD_ERROR_NONE ∧
    (write (.rsp false) payload s).2.outbound_queue
      = s.outbound_queue ++ [buildNoteAddRequest s.keep_alive payload] ∧
    (buildNoteAddRequest s.keep_alive payload).sync = s.keep_alive ∧
    HOST_ERROR_OUT_OF_MEMORY ≠ NOTECARD_ERROR_GENERIC ∧
    HOST_ERROR_OUT_OF_MEMORY ≠ NOTECARD_ERROR_NONE ∧
    NOTECARD_ERROR_GENERIC ≠ NOTECARD_ERROR_NONE :=
  ⟨rfl, rfl, rfl, rfl, rfl, by decide, by decide, by decide⟩

/-- C9 witness: a concrete allocation failure and a concrete successful
write with keep-alive active, whose enqueued request has `sync = true`. -/
theorem C9_write_witness :
    write .allocFail [1, 2] ⟨[], 0, [], [], false, false, true⟩
      = (HOST_ERROR_OUT_OF_MEMORY, ⟨[], 0, [], [], false, false, true⟩) ∧
    (write (.rsp false) [1, 2] ⟨[], 0, [], [], false, false, true⟩).2.outbound_queue
      = [⟨[1, 2], true⟩] :=
  ⟨(C9_write_statuses [1, 2] ⟨[], 0, [], [], false, false, true⟩).1,
   by
     have h := (C9_write_statuses [1, 2] ⟨[], 0, [], [], false, false, true⟩).2.2.2.1
     simpa using h⟩

/-- C10: when the rearm transaction is issued (both allocations succeed),
`armInterrupt` returns true whether or not the response carries a protocol
error — an errored response is treated identically to a clean one — and it
returns false exactly when the request or its file-list field could not be
allocated. -/
theorem C10_rearm_errors_ignored (env : ArmEnv) :
    (env.req_ok = true → env.files_ok = true →
      armInterrupt env = true ∧
      armInterrupt env = armInterrupt { env with rsp_err := false }) ∧
    (armInterrupt env = false ↔ (env.req_ok = false ∨ env.files_ok = false)) := by
  obtain ⟨r, f, e⟩ := env
  cases r <;> cases f <;> cases e <;> decide

/-- C10 witness: a rearm whose response carries the idempotency error
returns true, identically to one whose response is clean. -/
theorem C10_rearm_witness :
    armInterrupt ⟨true, true, true⟩ = true ∧
    armInterrupt ⟨true, true, true⟩ = armInterrupt ⟨true, true, false⟩ :=
  (C10_rearm_errors_ignored ⟨true, true, true⟩).1 rfl rfl

/-- Coercion of one payload byte to the `int` value `read` returns. -/
def byteToInt (b : Nat) : Int := (b : Int)

theorem drainReads_loaded (n : Nat) :
    ∀ s : HandlerState, s.inbound_queue = [] →
      s.inbound_buffer_index + n = s.inbound_buffer.length →
      drainReads n s =
        (List.map byteToInt (s.inbound_buffer.drop s.inbound_buffer_index),
         { s with inbound_buffer_index := s.inbound_buffer.length }) := by
  induction n with
  | zero =>
    intro s hq hlen
    have h : s.inbound_buffer_index = s.inbound_buffer.length := by omega
    have hdrop : s.inbound_buffer.drop s.inbound_buffer_index = [] := by
      rw [h]
      exact List.drop_length _
    have hs : ({ s with inbound_buffer_index := s.inbound_buffer.length } : HandlerState)
        = s := by
      rw [← h]
    rw [hdrop, hs]
    rfl
  | succ n ih =>
    intro s hq hlen
    have hidx : s.inbound_buffer_index < s.inbound_buffer.length := by omega
    have havail : available s = (true, s) := by
      unfold available
      rw [if_pos hidx]
    have hread : read s
        = (byteToInt (s.inbound_buffer.get ⟨s.inbound_buffer_index, hidx⟩),
           { s with inbound_buffer_index := s.inbound_buffer_index + 1 }) := by
      unfold read
      rw [dif_pos hidx]
      rfl
    have hih := ih { s with inbound_buffer_index := s.inbound_buffer_index + 1 }
      hq (by simp; omega)
    have hidx2 : s.inbound_buffer_index < (List.map byteToInt s.inbound_buffer).length := by
      simpa using hidx
    have hlist : List.drop s.inbound_buffer_index (List.map byteToInt s.inbound_buffer)
        = byteToInt (s.inbound_buffer.get ⟨s.inbound_buffer_index, hidx⟩)
          :: List.drop (s.inbound_buffer_index + 1) (List.map byteToInt s.inbound_buffer) := by
      rw [List.drop_eq_getElem_cons hidx2]
      simp [List.get_eq_getElem]
    simp only [drainReads, havail, hread, hih]
    simp [hlist]

theorem drainReads_dequeue (b : Nat) (t : List Nat) (s : HandlerState)
    (hb : s.inbound_buffer.length ≤ s.inbound_buffer_index)
    (hq : s.inbound_queue = [b :: t]) :
    drainReads (b :: t).length s
      = (List.map byteToInt (b :: t),
         { s with inbound_buffer := b :: t,
                  inbound_buffer_index := (b :: t).length,
                  inbound_queue := [] }) := by
  have hnot := Nat.not_lt.mpr hb
  have hgn : getNote true s = (some (b :: t), { s with inbound_queue := [] }) := by
    unfold getNote
    rw [hq]
    rfl
  have havail : available s
      = (true,
         { s with inbound_buffer := b :: t, inbound_buffer_index := 0,
                  inbound_queue := [] }) := by
    unfold available
    rw [if_neg hnot, hgn]
  have hread : read { s with inbound_buffer := b :: t, inbound_buffer_index := 0,
                              inbound_queue := [] }
      = (byteToInt b,
         { s with inbound_buffer := b :: t, inbound_buffer_index := 1,
                  inbound_queue := [] }) := by
    simp [read, byteToInt]
  have hld := drainReads_loaded t.length
    { s with inbound_buffer := b :: t, inbound_buffer_index := 1, inbound_queue := [] }
    rfl (Nat.add_comm 1 t.length)
  show drainReads (t.length + 1) s = _
  simp only [drainReads, havail, hread, hld]
  simp

/-- C4: round-trip law.  Starting from any handler state whose inbound
buffer is exhausted and whose inbound queue is empty, a successful `write`
of a byte sequence, followed by the simulated relay delivering that exact
payload back through the inbound channel, followed by repeated
`available()`/`read()` calls, reproduces the original byte sequence
exactly, one byte per `read()` call, in order — and one further `read`
after the sequence is drained yields the "no data" sentinel. -/
theorem C4_write_relay_roundtrip (payload : List Nat) (s : HandlerState)
    (hb : s.inbound_buffer.length ≤ s.inbound_buffer_index)
    (hq : s.inbound_queue = []) :
    (drainReads payload.length
        (relayDeliver payload (write (.rsp false) payload s).2)).1
      = List.map byteToInt payload ∧
    (read (drainReads payload.length
        (relayDeliver payload (write (.rsp false) payload s).2)).2).1
      = NOTECARD_ERROR_NO_DATA_AVAILABLE := by
  have hs2 : relayDeliver payload (write (.rsp false) payload s).2
      = { s with inbound_queue := [payload],
                 outbound_queue :=
                   s.outbound_queue ++ [buildNoteAddRequest s.keep_alive payload] } := by
    simp [write, relayDeliver, hq]
  rw [hs2]
  cases payload with
  | nil =>
    refine ⟨rfl, ?_⟩
    simp [drainReads, read, Nat.not_lt.mpr hb]
  | cons b t =>
    have hd := drainReads_dequeue b t
      { s with inbound_queue := [b :: t],
               outbound_queue :=
                 s.outbound_queue ++ [buildNoteAddRequest s.keep_alive (b :: t)] }
      hb rfl
    rw [hd]
    refine ⟨rfl, ?_⟩
    simp [read]

/-- C4 witness: the byte sequence 10, 200, 7 written, echoed by the relay
and drained comes back exactly, in order. -/
theorem C4_roundtrip_witness :
    (drainReads 3 (relayDeliver [10, 200, 7]
        (write (.rsp false) [10, 200, 7] ⟨[], 0, [], [], false, false, true⟩).2)).1
      = [(10 : Int), 200, 7] := by
  have h := (C4_write_relay_roundtrip [10, 200, 7]
    ⟨[], 0, [], [], false, false, true⟩ (by decide) rfl).1
  simpa [byteToInt] using h

end NotecardCH
